import Mathlib

/-!
Verification of the conversation-state manager in
`src/openai_conversation.py` (class `OpenAIConversationHandler`).

The class keeps an ordered list `self.messages` of dicts
`{"role": ..., "content": ...}` together with a cursor `self.message_index`,
appends user / assistant turns, forwards the accumulated transcript to the
OpenAI chat-completion endpoint, and reads messages back by position.

The embedding below translates each method into a pure Lean function over an
explicit state record.  Python's dynamic typing is modelled only as far as the
source inspects it: `add_message_from_user` tests `type(user_msg) is str`, so
a value carries its exact runtime type; attribute access on a plain dict
(which `get_response` performs via `self.messages[index].content`) fails with
`AttributeError`; list indexing follows Python's semantics, where a negative
index counts from the end of the list.  The outbound call
`openai.ChatCompletion.create(...)` is modelled as an oracle from the request
actually sent to one of three outcomes: a response object, an
`openai.error.APIError`, or any other exception.
-/

namespace OpenAIConversation

/-- The runtime type of a Python value, to the granularity the source
inspects: `type(x) is str` holds exactly for `PyType.str`; a proper subclass
of `str` is a distinct runtime type whose instances are still textual data;
every other type (`int`, `list`, ...) is non-textual. -/
inductive PyType where
  | str
  | strSub (name : String)
  | other (name : String)
deriving DecidableEq

/-- Textual data in the sense of the specification: an instance of `str` or
of a subclass of `str`. -/
def PyType.isTextual : PyType → Bool
  | .str => true
  | .strSub _ => true
  | .other _ => false

/-- A dynamically typed Python value: its exact runtime type and its textual
payload.  The payload is the string content when the type is textual; for
non-textual values it is a printable rendering that the source never reads. -/
structure PyValue where
  ty : PyType
  text : String
deriving DecidableEq

/-- A value of Python type exactly `str`. -/
def PyValue.ofStr (t : String) : PyValue := ⟨PyType.str, t⟩

/-- The Python exceptions arising in the embedded code paths. -/
inductive PyErr where
  | valueError
  | indexError
  | attributeError
deriving DecidableEq

/-- One entry of `self.messages`: the dict
`{"role": role, "content": content}` that `add_message` appends. -/
structure MsgDict where
  role : String
  content : PyValue
deriving DecidableEq

/-- Python attribute access `d.content` where `d` is a plain dict.  A dict
exposes its keys through item access `d["content"]` only; it has no
`content` attribute, so the access raises `AttributeError` regardless of the
dict's entries.  This is the access `get_response` performs on each stored
message. -/
def MsgDict.attrContent (_ : MsgDict) : Except PyErr PyValue :=
  Except.error PyErr.attributeError

/-- Python list indexing `xs[i]` for an `int` index: an index in
`[0, len)` selects from the front, an index in `[-len, 0)` selects from the
end (`xs[i]` is `xs[len + i]`), and everything else raises `IndexError`. -/
def pyListGet {α : Type} (xs : List α) (i : Int) : Except PyErr α :=
  let j : Int := if i < 0 then i + (xs.length : Int) else i
  if h : 0 ≤ j ∧ j < (xs.length : Int) then
    Except.ok (xs.get ⟨j.toNat, by omega⟩)
  else
    Except.error PyErr.indexError

/-- The instance state of an `OpenAIConversationHandler`: the generation
parameters fixed by `__init__`, the stored system context, the transcript
`self.messages`, and the cursor `self.message_index`.  The assignment
`openai.api_key = api_key` in `__init__` mutates process-global state of the
`openai` module, not the instance, and no embedded operation reads it. -/
structure HandlerState where
  model : String
  temperature : Float
  max_tokens : Int
  top_p : Float
  frequency_penalty : Float
  presence_penalty : Float
  system_context : String
  messages : List MsgDict
  message_index : Int

/-- `add_message(role, content)`: append the dict
`{"role": role, "content": content}` to `self.messages` and increment
`self.message_index`.  No validation of either argument. -/
def add_message (s : HandlerState) (role : String) (content : PyValue) :
    HandlerState :=
  { s with
    messages := s.messages ++ [⟨role, content⟩]
    message_index := s.message_index + 1 }

/-- `__init__(api_key, model_name, system_context, temperature, max_tokens,
top_p, frequency_penalty, presence_penalty)`: store the parameters, set
`self.messages = []` and `self.message_index = -1`, then
`self.add_message('system', system_context)`.  The `api_key` argument only
feeds the process-global `openai.api_key` assignment. -/
def initState (_api_key model_name system_context : String)
    (temperature : Float) (max_tokens : Int)
    (top_p frequency_penalty presence_penalty : Float) : HandlerState :=
  add_message
    { model := model_name
      temperature := temperature
      max_tokens := max_tokens
      top_p := top_p
      frequency_penalty := frequency_penalty
      presence_penalty := presence_penalty
      system_context := system_context
      messages := []
      message_index := -1 }
    "system" (PyValue.ofStr system_context)

/-- `clear_history()`: reset `self.messages = []`, `self.message_index = -1`,
then `self.add_message('system', self.system_context)`. -/
def clear_history (s : HandlerState) : HandlerState :=
  add_message
    { s with messages := [], message_index := -1 }
    "system" (PyValue.ofStr s.system_context)

/-- `add_message_from_user(user_msg)`: raise
`ValueError` when `type(user_msg) is not str`, otherwise
`self.add_message('user', user_msg)`.  An `Except.error` result models the
exception propagating before any mutation, so the state is unchanged. -/
def add_message_from_user (s : HandlerState) (user_msg : PyValue) :
    Except PyErr HandlerState :=
  if user_msg.ty ≠ PyType.str then
    Except.error PyErr.valueError
  else
    Except.ok (add_message s "user" user_msg)

/-- The `message` attribute of one candidate in a completion response; its
`content` may be any runtime value. -/
structure ChoiceMessage where
  content : PyValue
deriving DecidableEq

/-- One candidate (`choices[...]`) of a completion response. -/
structure Choice where
  message : ChoiceMessage
deriving DecidableEq

/-- A completion response object as the source reads it:
`gpt_response.choices[0].message.content`.  Response objects expose these
fields as attributes, so the accesses succeed whenever the fields exist. -/
structure GptResponse where
  choices : List Choice
deriving DecidableEq

/-- `add_message_from_gpt_response(gpt_response)`:
`reply = gpt_response.choices[0].message.content`, then
`self.add_message('assistant', reply)`.  `choices[0]` raises `IndexError`
when the candidate list is empty; no validation of `reply` itself. -/
def add_message_from_gpt_response (s : HandlerState)
    (gpt_response : GptResponse) : Except PyErr HandlerState :=
  match gpt_response.choices with
  | [] => Except.error PyErr.indexError
  | choice :: _ => Except.ok (add_message s "assistant" choice.message.content)

/-- The request `get_chatgpt_response` passes to
`openai.ChatCompletion.create`: the full current transcript plus the six
generation parameters stored at construction. -/
structure CompletionRequest where
  model : String
  messages : List MsgDict
  temperature : Float
  max_tokens : Int
  top_p : Float
  frequency_penalty : Float
  presence_penalty : Float

/-- The argument record `get_chatgpt_response` builds for the service call,
read directly off the instance state. -/
def buildRequest (s : HandlerState) : CompletionRequest :=
  { model := s.model
    messages := s.messages
    temperature := s.temperature
    max_tokens := s.max_tokens
    top_p := s.top_p
    frequency_penalty := s.frequency_penalty
    presence_penalty := s.presence_penalty }

/-- Possible outcomes of the outbound `openai.ChatCompletion.create` call:
a response object, an `openai.error.APIError`, or any other exception. -/
inductive CompletionOutcome where
  | ok (response : GptResponse)
  | apiError (msg : String)
  | unexpectedError (msg : String)

/-- `get_chatgpt_response()`: call the service with the full transcript and
the six generation parameters; on a response, run
`add_message_from_gpt_response`; an `APIError`, any other exception from the
call, and any exception from processing the response (e.g. `choices[0]` on an
empty candidate list) are caught by the `except` clauses, printed, and
swallowed, leaving the state untouched.  The Python method always returns
`None`; accordingly the embedding returns only the (possibly updated) state,
carrying no success/failure signal. -/
def get_chatgpt_response (s : HandlerState)
    (svc : CompletionRequest → CompletionOutcome) : HandlerState :=
  match svc (buildRequest s) with
  | CompletionOutcome.ok response =>
      match add_message_from_gpt_response s response with
      | Except.ok s2 => s2
      | Except.error _ => s
  | CompletionOutcome.apiError _ => s
  | CompletionOutcome.unexpectedError _ => s

/-- `get_response(index=None)`: default the index to `self.message_index`,
then evaluate `self.messages[index].content` — Python list indexing followed
by attribute access on the stored dict. -/
def get_response (s : HandlerState) (index : Option Int) :
    Except PyErr PyValue :=
  let i : Int :=
    match index with
    | none => s.message_index
    | some j => j
  match pyListGet s.messages i with
  | Except.error e => Except.error e
  | Except.ok d => d.attrContent

/-- One externally triggered append operation of a session: a user turn
(`add_message_from_user`), an assistant turn recorded from a response
(`add_message_from_gpt_response`), or a full completion round trip
(`get_chatgpt_response` with a given service behaviour). -/
inductive Op where
  | user (user_msg : PyValue)
  | assistant (gpt_response : GptResponse)
  | completion (svc : CompletionRequest → CompletionOutcome)

/-- Execute one operation on the session state.  A raising
`add_message_from_user` / `add_message_from_gpt_response` leaves the state
as it was (the exception fires before any mutation). -/
def stepOp (s : HandlerState) : Op → HandlerState
  | Op.user v =>
      match add_message_from_user s v with
      | Except.ok s2 => s2
      | Except.error _ => s
  | Op.assistant r =>
      match add_message_from_gpt_response s r with
      | Except.ok s2 => s2
      | Except.error _ => s
  | Op.completion svc => get_chatgpt_response s svc

/-- Execute a finite sequence of operations from a given state. -/
def runOps (s : HandlerState) (ops : List Op) : HandlerState :=
  List.foldl stepOp s ops

/-- The operation, run from state `s`, performs an append: a user turn whose
value has runtime type `str`, an assistant turn from a response with at least
one candidate, or a completion call whose service outcome is a response with
at least one candidate. -/
def appendsOne (s : HandlerState) : Op → Prop
  | Op.user v => v.ty = PyType.str
  | Op.assistant r => r.choices ≠ []
  | Op.completion svc =>
      ∃ r c rest, svc (buildRequest s) = CompletionOutcome.ok r ∧
        r.choices = c :: rest

/-- The cursor invariant: `message_index` equals `size(messages) - 1`. -/
def indexInvariant (s : HandlerState) : Prop :=
  s.message_index = (s.messages.length : Int) - 1

/-- A fresh session, used to instantiate theorems at concrete inputs. -/
def sampleInit : HandlerState :=
  initState "key" "gpt-3.5-turbo" "You are helpful." 1 1024 1 0 0

/-- A three-message session: the seeded system message, one user turn, one
assistant turn. -/
def sampleSession : HandlerState :=
  add_message
    (add_message sampleInit "user" (PyValue.ofStr "Hi"))
    "assistant" (PyValue.ofStr "Hello!")

/-! ### Helper lemmas -/

theorem add_message_messages (s : HandlerState) (role : String)
    (content : PyValue) :
    (add_message s role content).messages = s.messages ++ [⟨role, content⟩] :=
  rfl

theorem add_message_length (s : HandlerState) (role : String)
    (content : PyValue) :
    (add_message s role content).messages.length = s.messages.length + 1 := by
  simp [add_message]

theorem add_message_invariant (s : HandlerState) (role : String)
    (content : PyValue) (h : indexInvariant s) :
    indexInvariant (add_message s role content) := by
  simp only [indexInvariant, add_message, List.length_append,
    List.length_cons, List.length_nil] at h ⊢
  omega

theorem stepOp_invariant (s : HandlerState) (op : Op)
    (h : indexInvariant s) : indexInvariant (stepOp s op) := by
  cases op with
  | user v =>
      simp only [stepOp, add_message_from_user]
      by_cases hv : v.ty = PyType.str
      · simp only [hv, ne_eq, not_true_eq_false, if_neg, ite_false]
        exact add_message_invariant s "user" v h
      · simp only [ne_eq, hv, not_false_eq_true, ite_true]
        exact h
  | assistant r =>
      simp only [stepOp, add_message_from_gpt_response]
      cases r.choices with
      | nil => exact h
      | cons c rest => exact add_message_invariant s "assistant" _ h
  | completion svc =>
      simp only [stepOp, get_chatgpt_response]
      cases svc (buildRequest s) with
      | ok response =>
          simp only [add_message_from_gpt_response]
          cases response.choices with
          | nil => exact h
          | cons c rest => exact add_message_invariant s "assistant" _ h
      | apiError m => exact h
      | unexpectedError m => exact h

theorem runOps_invariant (ops : List Op) (s : HandlerState)
    (h : indexInvariant s) : indexInvariant (runOps s ops) := by
  induction ops generalizing s with
  | nil => exact h
  | cons op rest ih => exact ih (stepOp s op) (stepOp_invariant s op h)

theorem initState_invariant (k m sc : String) (t : Float) (mt : Int)
    (tp fp pp : Float) :
    indexInvariant (initState k m sc t mt tp fp pp) := by
  simp [indexInvariant, initState, add_message]

theorem pyListGet_error_iff {α : Type} (xs : List α) (i : Int) :
    pyListGet xs i = Except.error PyErr.indexError ↔
      (i < -(xs.length : Int) ∨ (xs.length : Int) ≤ i) := by
  unfold pyListGet
  dsimp only
  split <;> split <;> simp <;> omega

theorem stepOp_append_length (s : HandlerState) (op : Op)
    (h : appendsOne s op) :
    (stepOp s op).messages.length = s.messages.length + 1 := by
  cases op with
  | user v =>
      have hv : v.ty = PyType.str := h
      simp [stepOp, add_message_from_user, hv, add_message]
  | assistant r =>
      have hr : r.choices ≠ [] := h
      cases hcr : r.choices with
      | nil => exact absurd hcr hr
      | cons c rest =>
          simp [stepOp, add_message_from_gpt_response, hcr, add_message]
  | completion svc =>
      obtain ⟨r, c, rest, hok, hc⟩ := h
      simp [stepOp, get_chatgpt_response, hok, add_message_from_gpt_response,
        hc, add_message]

/-- The outcome of a completion call that fails at the API level. -/
def svcApiError : CompletionRequest → CompletionOutcome :=
  fun _ => CompletionOutcome.apiError "rate limited"

/-- A response candidate whose content is the `str` value `"Hello!"`. -/
def helloChoice : Choice := ⟨⟨PyValue.ofStr "Hello!"⟩⟩

/-- A service behaviour that returns one candidate with content `"Hello!"`. -/
def svcHello : CompletionRequest → CompletionOutcome :=
  fun _ => CompletionOutcome.ok ⟨[helloChoice]⟩

/-- A response candidate whose content is the `str` value `"hello"`. -/
def helloLower : Choice := ⟨⟨PyValue.ofStr "hello"⟩⟩

/-- A textual value whose exact runtime type is a proper subclass of
`str`. -/
def subStrHi : PyValue := ⟨PyType.strSub "UserText", "Hi"⟩

/-! ### Claims -/

/-- C1: evidence of the code defect.  `get_response` never returns a
message's content: `self.messages[index].content` is attribute access on a
stored dict, which raises `AttributeError` for every in-range index — here
index 0 (the system message) and the defaulted most-recent index on a fresh
session — contradicting the method's documented return value. -/
theorem get_response_attribute_error_defect :
    get_response sampleInit (some 0) = Except.error PyErr.attributeError
    ∧ get_response sampleInit none = Except.error PyErr.attributeError
    ∧ sampleInit.messages = [⟨"system", PyValue.ofStr "You are helpful."⟩] :=
  ⟨rfl, rfl, rfl⟩

/-- C2 counterexample: on the three-message session, index `-1` is outside
`[0, 3)` yet `get_response` does not raise `IndexError`: Python indexing
resolves `-1` to the last message, and the call instead fails with
`AttributeError` (the dict-attribute defect of C1). -/
theorem get_response_neg_index_not_index_error :
    sampleSession.messages.length = 3
    ∧ get_response sampleSession (some (-1))
        = Except.error PyErr.attributeError
    ∧ get_response sampleSession (some (-1))
        ≠ Except.error PyErr.indexError := by
  refine ⟨rfl, rfl, ?_⟩
  intro hcon
  rw [show get_response sampleSession (some (-1))
      = Except.error PyErr.attributeError from rfl] at hcon
  simp at hcon

/-- C2 (amended): `get_response` raises `IndexError` exactly when the index
is outside `[-size(transcript), size(transcript))` — Python list indexing
admits negative indices counting from the end, so `-1` addresses the last
message instead of raising; an index at or beyond the size (such as 99 on a
three-message transcript) raises `IndexError`. -/
theorem get_response_index_error_iff (s : HandlerState) (i : Int) :
    get_response s (some i) = Except.error PyErr.indexError ↔
      (i < -(s.messages.length : Int) ∨ (s.messages.length : Int) ≤ i) := by
  unfold get_response
  dsimp only
  rw [← pyListGet_error_iff s.messages i]
  cases h : pyListGet s.messages i with
  | ok d => simp [MsgDict.attrContent]
  | error e => simp

/-- C2 witness: the amended characterization instantiated on the concrete
three-message session at index 99, which raises `IndexError`. -/
theorem get_response_index_error_iff_witness :
    get_response sampleSession (some 99) = Except.error PyErr.indexError :=
  (get_response_index_error_iff sampleSession 99).mpr (by decide)

/-- C3: when the completion call fails — an `APIError`, any other exception,
or a malformed response with an empty candidate list — the error is caught
inside `get_chatgpt_response`, the state (hence the transcript) is returned
unchanged, and, the embedding being a total function into `HandlerState`, no
exception escapes and no success/failure value is produced. -/
theorem get_chatgpt_response_failure_leaves_state (s : HandlerState)
    (svc : CompletionRequest → CompletionOutcome)
    (h : (∃ m, svc (buildRequest s) = CompletionOutcome.apiError m)
      ∨ (∃ m, svc (buildRequest s) = CompletionOutcome.unexpectedError m)
      ∨ (∃ r, svc (buildRequest s) = CompletionOutcome.ok r ∧
          r.choices = [])) :
    get_chatgpt_response s svc = s := by
  unfold get_chatgpt_response
  rcases h with ⟨m, hm⟩ | ⟨m, hm⟩ | ⟨r, hr, hc⟩
  · rw [hm]
  · rw [hm]
  · rw [hr]
    simp [add_message_from_gpt_response, hc]

/-- C3 witness: a service that raises `APIError` leaves the concrete
three-message session exactly as it was. -/
theorem get_chatgpt_response_failure_leaves_state_witness :
    get_chatgpt_response sampleSession svcApiError = sampleSession :=
  get_chatgpt_response_failure_leaves_state sampleSession svcApiError
    (Or.inl ⟨"rate limited", rfl⟩)

/-- C4: `get_chatgpt_response` sends the full current transcript together
with all six generation parameters, and on a response with at least one
candidate appends exactly the first candidate's text as one assistant
message, growing the transcript by exactly one. -/
theorem get_chatgpt_response_success_appends (s : HandlerState)
    (svc : CompletionRequest → CompletionOutcome) (r : GptResponse)
    (c : Choice) (rest : List Choice)
    (hok : svc (buildRequest s) = CompletionOutcome.ok r)
    (hc : r.choices = c :: rest) :
    buildRequest s =
      { model := s.model
        messages := s.messages
        temperature := s.temperature
        max_tokens := s.max_tokens
        top_p := s.top_p
        frequency_penalty := s.frequency_penalty
        presence_penalty := s.presence_penalty }
    ∧ get_chatgpt_response s svc = add_message s "assistant" c.message.content
    ∧ (get_chatgpt_response s svc).messages
        = s.messages ++ [⟨"assistant", c.message.content⟩]
    ∧ (get_chatgpt_response s svc).messages.length
        = s.messages.length + 1 := by
  have hmain : get_chatgpt_response s svc
      = add_message s "assistant" c.message.content := by
    unfold get_chatgpt_response
    rw [hok]
    simp [add_message_from_gpt_response, hc]
  refine ⟨rfl, hmain, ?_, ?_⟩
  · rw [hmain]; rfl
  · rw [hmain]; simp [add_message]

/-- C4 witness: on a fresh session, a service returning one candidate
`"Hello!"` yields exactly one appended assistant message. -/
theorem get_chatgpt_response_success_appends_witness :
    get_chatgpt_response sampleInit svcHello
      = add_message sampleInit "assistant" (PyValue.ofStr "Hello!")
    ∧ (get_chatgpt_response sampleInit svcHello).messages.length
      = sampleInit.messages.length + 1 :=
  ⟨(get_chatgpt_response_success_appends sampleInit svcHello ⟨[helloChoice]⟩
      helloChoice [] rfl rfl).2.1,
   (get_chatgpt_response_success_appends sampleInit svcHello ⟨[helloChoice]⟩
      helloChoice [] rfl rfl).2.2.2⟩

/-- C5 counterexample: `subStrHi` is textual data (an instance of a proper
subclass of `str`), so the claim as stated requires `add_message_from_user`
to append it; the code instead raises `ValueError`, because the validation
compares the exact runtime type with `str`. -/
theorem add_message_from_user_rejects_textual :
    subStrHi.ty.isTextual = true
    ∧ add_message_from_user sampleInit subStrHi
        = Except.error PyErr.valueError :=
  ⟨rfl, rfl⟩

/-- C5 (amended): `add_message_from_user` raises `ValueError` — the state,
hence the transcript, unchanged since the exception fires before any
mutation — exactly when the input's exact runtime type is not `str`
(including textual instances of proper `str` subclasses); when the runtime
type is exactly `str` it appends `{user, text}` and advances the cursor by
one. -/
theorem add_message_from_user_spec (s : HandlerState) (v : PyValue) :
    (v.ty ≠ PyType.str →
      add_message_from_user s v = Except.error PyErr.valueError)
    ∧ (v.ty = PyType.str →
      add_message_from_user s v = Except.ok (add_message s "user" v)
      ∧ (add_message s "user" v).messages = s.messages ++ [⟨"user", v⟩]
      ∧ (add_message s "user" v).message_index = s.message_index + 1) := by
  constructor
  · intro hne
    simp [add_message_from_user, hne]
  · intro heq
    refine ⟨?_, rfl, rfl⟩
    simp [add_message_from_user, heq]

/-- C5 witness: the integer `42` (runtime type `int`) is rejected with
`ValueError`; the `str` value `"Hi"` is appended as a user message. -/
theorem add_message_from_user_spec_witness :
    add_message_from_user sampleInit ⟨PyType.other "int", "42"⟩
      = Except.error PyErr.valueError
    ∧ add_message_from_user sampleInit (PyValue.ofStr "Hi")
      = Except.ok (add_message sampleInit "user" (PyValue.ofStr "Hi")) :=
  ⟨(add_message_from_user_spec sampleInit ⟨PyType.other "int", "42"⟩).1
      (by decide),
   ((add_message_from_user_spec sampleInit (PyValue.ofStr "Hi")).2 rfl).1⟩

/-- C6: from a fresh session, the cursor invariant
`message_index = size(transcript) - 1` holds after every finite sequence of
append operations, and every operation that performs an append (a user turn
of runtime type `str`, an assistant turn from a response with a candidate,
or a completion round trip whose outcome is a response with a candidate)
grows the transcript by exactly one. -/
theorem session_invariant_and_growth
    (api_key model_name system_context : String) (temperature : Float)
    (max_tokens : Int) (top_p frequency_penalty presence_penalty : Float)
    (ops : List Op) (op : Op) :
    indexInvariant (runOps (initState api_key model_name system_context
      temperature max_tokens top_p frequency_penalty presence_penalty) ops)
    ∧ (appendsOne (runOps (initState api_key model_name system_context
        temperature max_tokens top_p frequency_penalty presence_penalty)
          ops) op →
      (stepOp (runOps (initState api_key model_name system_context
        temperature max_tokens top_p frequency_penalty presence_penalty)
          ops) op).messages.length
        = (runOps (initState api_key model_name system_context
            temperature max_tokens top_p frequency_penalty presence_penalty)
              ops).messages.length + 1) :=
  ⟨runOps_invariant ops _
      (initState_invariant api_key model_name system_context temperature
        max_tokens top_p frequency_penalty presence_penalty),
   fun hap => stepOp_append_length _ op hap⟩

/-- C6 witness: after one appended user turn the invariant holds, and a
subsequent assistant append grows the transcript by exactly one. -/
theorem session_invariant_and_growth_witness :
    indexInvariant (runOps sampleInit [Op.user (PyValue.ofStr "Hi")])
    ∧ (stepOp (runOps sampleInit [Op.user (PyValue.ofStr "Hi")])
        (Op.assistant ⟨[helloChoice]⟩)).messages.length
      = (runOps sampleInit
          [Op.user (PyValue.ofStr "Hi")]).messages.length + 1 :=
  ⟨(session_invariant_and_growth "key" "gpt-3.5-turbo" "You are helpful."
      1 1024 1 0 0 [Op.user (PyValue.ofStr "Hi")]
      (Op.assistant ⟨[helloChoice]⟩)).1,
   (session_invariant_and_growth "key" "gpt-3.5-turbo" "You are helpful."
      1 1024 1 0 0 [Op.user (PyValue.ofStr "Hi")]
      (Op.assistant ⟨[helloChoice]⟩)).2 (by simp [appendsOne])⟩

/-- C7: immediately after `__init__` and immediately after `clear_history`
— whatever the transcript held before — the transcript is exactly one
message with role `system` and content equal to the stored system context,
and the cursor is 0. -/
theorem initState_clear_history_reset
    (api_key model_name system_context : String) (temperature : Float)
    (max_tokens : Int) (top_p frequency_penalty presence_penalty : Float)
    (s : HandlerState) :
    (initState api_key model_name system_context temperature max_tokens
      top_p frequency_penalty presence_penalty).messages
      = [⟨"system", PyValue.ofStr system_context⟩]
    ∧ (initState api_key model_name system_context temperature max_tokens
        top_p frequency_penalty presence_penalty).message_index = 0
    ∧ (initState api_key model_name system_context temperature max_tokens
        top_p frequency_penalty presence_penalty).system_context
      = system_context
    ∧ (clear_history s).messages
      = [⟨"system", PyValue.ofStr s.system_context⟩]
    ∧ (clear_history s).message_index = 0 :=
  ⟨rfl, rfl, rfl, rfl, rfl⟩

/-- C8: the assistant-append path validates nothing about the reply value:
for every response with at least one candidate, whatever the runtime type of
the first candidate's content, `add_message_from_gpt_response` succeeds and
appends `{assistant, content}`, advancing the cursor. -/
theorem add_message_from_gpt_response_appends (s : HandlerState)
    (r : GptResponse) (c : Choice) (rest : List Choice)
    (hc : r.choices = c :: rest) :
    add_message_from_gpt_response s r
      = Except.ok (add_message s "assistant" c.message.content)
    ∧ (add_message s "assistant" c.message.content).messages
      = s.messages ++ [⟨"assistant", c.message.content⟩]
    ∧ (add_message s "assistant" c.message.content).message_index
      = s.message_index + 1 := by
  refine ⟨?_, rfl, rfl⟩
  simp [add_message_from_gpt_response, hc]

/-- C8 witness: appending the reply `"hello"` succeeds and stores
`{assistant, "hello"}`. -/
theorem add_message_from_gpt_response_appends_witness :
    add_message_from_gpt_response sampleInit ⟨[helloLower]⟩
      = Except.ok (add_message sampleInit "assistant"
          (PyValue.ofStr "hello")) :=
  (add_message_from_gpt_response_appends sampleInit ⟨[helloLower]⟩
    helloLower [] rfl).1

/-- C9: an instance of a proper subclass of `str` — textual data whose exact
runtime type is not `str` — is rejected by `add_message_from_user` with
`ValueError` (the state, hence the transcript, unchanged), because the
validation is `type(user_msg) is not str`. -/
theorem add_message_from_user_rejects_subclass (s : HandlerState)
    (v : PyValue) (nm : String) (h : v.ty = PyType.strSub nm) :
    v.ty.isTextual = true
    ∧ add_message_from_user s v = Except.error PyErr.valueError := by
  have hne : v.ty ≠ PyType.str := by
    rw [h]
    simp
  constructor
  · rw [h]
    rfl
  · simp [add_message_from_user, hne]

/-- C9 witness: a concrete `str`-subclass instance carrying `"Hola"` is
textual yet rejected on the three-message session. -/
theorem add_message_from_user_rejects_subclass_witness :
    (⟨PyType.strSub "UserText", "Hola"⟩ : PyValue).ty.isTextual = true
    ∧ add_message_from_user sampleSession ⟨PyType.strSub "UserText", "Hola"⟩
      = Except.error PyErr.valueError :=
  add_message_from_user_rejects_subclass sampleSession
    ⟨PyType.strSub "UserText", "Hola"⟩ "UserText" rfl

/-- C10: `add_message` appends `{role, content}` for every role string —
including strings outside the enum {system, user, assistant} — and advances
the cursor, performing no role validation whatsoever. -/
theorem add_message_no_role_validation (s : HandlerState) (role : String)
    (content : PyValue) :
    (add_message s role content).messages = s.messages ++ [⟨role, content⟩]
    ∧ (add_message s role content).message_index = s.message_index + 1
    ∧ (add_message s role content).messages.length
      = s.messages.length + 1 :=
  ⟨rfl, rfl, by simp [add_message]⟩

end OpenAIConversation
